import Mathlib

/-!
Shallow embedding of the method-dispatch core (`calls.cc`) of the Sorbet
type checker, restricted to the fragment of the type lattice exercised by
the claims under verification: nominal classes, applied generics, literal
types, shapes, tuples, unions and intersections of value types.  Inference
artifacts (`TypeVar`, `SelfTypeParam`, `LambdaParam`) and `MetaType` are not
part of the fragment; the substitution operations that act on them are the
identity here.

External collaborators that the dispatch core consumes as primitives (the
subtype kernel, `DispatchResult::merge`, the `DispatchArgs` helpers) are not
part of the repository sources; where a claim depends on them they are
modelled from the specification and marked as such.
-/

namespace SorbetCalls

/-- Class / module symbol ids (`ClassOrModuleRef`). -/
abbrev ClassId := Nat

/-- Method symbol ids (`MethodRef`); doubles as the symbol-id tie-breaker. -/
abbrev MethodId := Nat

/-- `NameRef`: either an ordinary UTF8 name or a mangled unique name of kind
`Overload` (`lookupNameUnique(UniqueNameKind::Overload, base, i)`). -/
inductive MName where
  | utf8 (s : String)
  | uniqueOverload (base : MName) (i : Nat)
deriving DecidableEq, Repr

/-- Literal values carried by `LiteralType`; the underlying class is
determined by the kind. -/
inductive LitVal where
  | int (n : Int)
  | str (s : String)
  | sym (s : String)
  | boolean (b : Bool)
deriving DecidableEq, Repr

-- Well-known symbol ids mirroring `core::Symbols`.
namespace Symbols
def untyped : ClassId := 1
def voidC : ClassId := 2
def bottom : ClassId := 3
def top : ClassId := 4
def NilClass : ClassId := 5
def Integer : ClassId := 6
def StringC : ClassId := 7
def SymbolC : ClassId := 8
def TrueClass : ClassId := 9
def FalseClass : ClassId := 10
def Hash : ClassId := 11
def Array : ClassId := 12
def Tuple : ClassId := 13
def Shape : ClassId := 14
def Module : ClassId := 16
def Object : ClassId := 17
end Symbols

/-- The type lattice fragment (`TypePtr` variants used by the claims). -/
inductive Ty where
  | classType (sym : ClassId)
  | appliedType (klass : ClassId) (targs : List Ty)
  | litType (v : LitVal)
  | tupleType (elems : List Ty)
  | shapeType (entries : List (LitVal × Ty))
  | orType (left right : Ty)
  | andType (left right : Ty)
deriving Repr

mutual

def Ty.beq : Ty → Ty → Bool
  | Ty.classType a, Ty.classType b => a == b
  | Ty.appliedType k1 l1, Ty.appliedType k2 l2 => k1 == k2 && Ty.beqList l1 l2
  | Ty.litType v1, Ty.litType v2 => v1 == v2
  | Ty.tupleType l1, Ty.tupleType l2 => Ty.beqList l1 l2
  | Ty.shapeType e1, Ty.shapeType e2 => Ty.beqEntries e1 e2
  | Ty.orType a1 b1, Ty.orType a2 b2 => Ty.beq a1 a2 && Ty.beq b1 b2
  | Ty.andType a1 b1, Ty.andType a2 b2 => Ty.beq a1 a2 && Ty.beq b1 b2
  | _, _ => false

def Ty.beqList : List Ty → List Ty → Bool
  | [], [] => true
  | a :: l1, b :: l2 => Ty.beq a b && Ty.beqList l1 l2
  | _, _ => false

def Ty.beqEntries : List (LitVal × Ty) → List (LitVal × Ty) → Bool
  | [], [] => true
  | (k1, v1) :: r1, (k2, v2) :: r2 => k1 == k2 && Ty.beq v1 v2 && Ty.beqEntries r1 r2
  | _, _ => false

end

mutual

def Ty.beq_iff : ∀ a b : Ty, (Ty.beq a b = true) ↔ a = b
  | Ty.classType a, Ty.classType b => by simp [Ty.beq]
  | Ty.appliedType k1 l1, Ty.appliedType k2 l2 => by
      simp [Ty.beq, Ty.beqList_iff l1 l2]
  | Ty.litType v1, Ty.litType v2 => by simp [Ty.beq]
  | Ty.tupleType l1, Ty.tupleType l2 => by simp [Ty.beq, Ty.beqList_iff l1 l2]
  | Ty.shapeType e1, Ty.shapeType e2 => by simp [Ty.beq, Ty.beqEntries_iff e1 e2]
  | Ty.orType a1 b1, Ty.orType a2 b2 => by
      simp [Ty.beq, Ty.beq_iff a1 a2, Ty.beq_iff b1 b2]
  | Ty.andType a1 b1, Ty.andType a2 b2 => by
      simp [Ty.beq, Ty.beq_iff a1 a2, Ty.beq_iff b1 b2]
  | Ty.classType _, Ty.appliedType .. | Ty.classType _, Ty.litType _
  | Ty.classType _, Ty.tupleType _ | Ty.classType _, Ty.shapeType _
  | Ty.classType _, Ty.orType .. | Ty.classType _, Ty.andType ..
  | Ty.appliedType .., Ty.classType _ | Ty.appliedType .., Ty.litType _
  | Ty.appliedType .., Ty.tupleType _ | Ty.appliedType .., Ty.shapeType _
  | Ty.appliedType .., Ty.orType .. | Ty.appliedType .., Ty.andType ..
  | Ty.litType _, Ty.classType _ | Ty.litType _, Ty.appliedType ..
  | Ty.litType _, Ty.tupleType _ | Ty.litType _, Ty.shapeType _
  | Ty.litType _, Ty.orType .. | Ty.litType _, Ty.andType ..
  | Ty.tupleType _, Ty.classType _ | Ty.tupleType _, Ty.appliedType ..
  | Ty.tupleType _, Ty.litType _ | Ty.tupleType _, Ty.shapeType _
  | Ty.tupleType _, Ty.orType .. | Ty.tupleType _, Ty.andType ..
  | Ty.shapeType _, Ty.classType _ | Ty.shapeType _, Ty.appliedType ..
  | Ty.shapeType _, Ty.litType _ | Ty.shapeType _, Ty.tupleType _
  | Ty.shapeType _, Ty.orType .. | Ty.shapeType _, Ty.andType ..
  | Ty.orType .., Ty.classType _ | Ty.orType .., Ty.appliedType ..
  | Ty.orType .., Ty.litType _ | Ty.orType .., Ty.tupleType _
  | Ty.orType .., Ty.shapeType _ | Ty.orType .., Ty.andType ..
  | Ty.andType .., Ty.classType _ | Ty.andType .., Ty.appliedType ..
  | Ty.andType .., Ty.litType _ | Ty.andType .., Ty.tupleType _
  | Ty.andType .., Ty.shapeType _ | Ty.andType .., Ty.orType .. => by
      simp [Ty.beq]

def Ty.beqList_iff : ∀ a b : List Ty, (Ty.beqList a b = true) ↔ a = b
  | [], [] => by simp [Ty.beqList]
  | a :: l1, b :: l2 => by
      simp [Ty.beqList, Ty.beq_iff a b, Ty.beqList_iff l1 l2]
  | [], _ :: _ => by simp [Ty.beqList]
  | _ :: _, [] => by simp [Ty.beqList]

def Ty.beqEntries_iff :
    ∀ a b : List (LitVal × Ty), (Ty.beqEntries a b = true) ↔ a = b
  | [], [] => by simp [Ty.beqEntries]
  | (k1, v1) :: r1, (k2, v2) :: r2 => by
      simp [Ty.beqEntries, Ty.beq_iff v1 v2, Ty.beqEntries_iff r1 r2, and_assoc]
  | [], _ :: _ => by simp [Ty.beqEntries]
  | _ :: _, [] => by simp [Ty.beqEntries]

end

instance : DecidableEq Ty := fun a b =>
  decidable_of_iff (Ty.beq a b = true) (Ty.beq_iff a b)

def untypedTy : Ty := Ty.classType Symbols.untyped
def nilTy : Ty := Ty.classType Symbols.NilClass
def bottomTy : Ty := Ty.classType Symbols.bottom
def trueTy : Ty := Ty.classType Symbols.TrueClass
def falseTy : Ty := Ty.classType Symbols.FalseClass
/-- `Types::Boolean()` is the union of the two boolean singleton classes. -/
def booleanTy : Ty := Ty.orType trueTy falseTy
def integerTy : Ty := Ty.classType Symbols.Integer
def stringTy : Ty := Ty.classType Symbols.StringC
/-- `Types::hashOfUntyped()`. -/
def hashOfUntypedTy : Ty := Ty.appliedType Symbols.Hash [untypedTy, untypedTy]

/-- `TypePtr::isUntyped` on the fragment. -/
def Ty.isUntyped : Ty → Bool
  | Ty.classType c => c == Symbols.untyped
  | _ => false

/-- `TypePtr::isBottom` on the fragment. -/
def Ty.isBottomTy : Ty → Bool
  | Ty.classType c => c == Symbols.bottom
  | _ => false

/-- Underlying class of a `LiteralType` (determined by its kind). -/
def LitVal.underlyingClass : LitVal → ClassId
  | LitVal.int _ => Symbols.Integer
  | LitVal.str _ => Symbols.StringC
  | LitVal.sym _ => Symbols.SymbolC
  | LitVal.boolean b => if b then Symbols.TrueClass else Symbols.FalseClass

/-- `underlying(gs)` of a proxy `LiteralType`: the plain class of its kind. -/
def LitVal.underlyingTy (v : LitVal) : Ty := Ty.classType v.underlyingClass

/-- Diagnostic classes (`core::errors::Infer`) relevant to the embedded
fragment.  Diagnostics are data and travel on two channels, as in the
source: most are queued on the dispatch result
(`result.main.errors.emplace_back`), while some are sent directly to the
global queue via `gs.beginError` with no suppression check (lines 785,
1102, 1318, 1325, 2512) and therefore escape even when the enclosing
result is discarded.  The result's error list is the embedding's view of
the diagnostics a single dispatch carries (the direct intrinsic
diagnostics are folded into it as well, so claims about one non-discarded
dispatch can read them off the result); the separate `dispatchCallEmits`
channel models the global queue itself. -/
inductive ErrKind where
  | unknownMethod
  | methodArgumentMismatch
  | methodArgumentCountMismatch
  | invalidCast
  | bareTypeUsage
  | revealTypeInfo
  | genericMethodConstaintUnsolved
  | blockNotPassed
  | takesNoBlock
  | untypedSplat
deriving DecidableEq, Repr

/-- `DispatchResult::Combinator`. -/
inductive Combinator where
  | AND
  | OR
deriving DecidableEq, Repr

/-- The intrinsic handlers embedded for the claims (entries of the static
`intrinsicMethods` registry, lines 2907-2974; `method.data(gs)->intrinsic`
is populated from that table). -/
inductive IntrinsicId where
  | tupleSquareBrackets
  | tupleFirst
  | tupleLast
  | tupleMinMax
  | tupleToA
  | tupleConcat
  | shapeSquareBracketsEq
  | shapeMerge
  | shapeToHash
  | tMust
  | moduleTripleEq
deriving DecidableEq, Repr

/-- `TypeAndOrigins`: the origins (source locations) are diagnostic
metadata and are not modelled. -/
structure TypeAndOrigins where
  type : Ty
deriving DecidableEq, Repr

/-- `DispatchArgs` (locations and `originForUninitialized` are diagnostic
metadata and are not modelled; `block` records only presence). -/
structure DispatchArgs where
  name : MName
  numPosArgs : Nat
  args : List TypeAndOrigins
  selfType : Ty
  fullType : Ty
  thisType : Ty
  block : Bool
  suppressErrors : Bool := false
deriving DecidableEq, Repr

/-- `DispatchArgs::withThisRef`: replaces only `thisType`. -/
def DispatchArgs.withThisRef (a : DispatchArgs) (t : Ty) : DispatchArgs :=
  { a with thisType := t }

/-- Modelled from the spec: `DispatchArgs::withSelfRef` is declared outside
the provided sources.  Per §4.1 a union dispatch computes both sides "with
`this_type` narrowed to the component", and the name says the self receiver
is set as well, so it replaces both `selfType` and `thisType`. -/
def DispatchArgs.withSelfRef (a : DispatchArgs) (t : Ty) : DispatchArgs :=
  { a with selfType := t, thisType := t }

/-- `DispatchArgs::withErrorsSuppressed`. -/
def DispatchArgs.withErrorsSuppressed (a : DispatchArgs) : DispatchArgs :=
  { a with suppressErrors := true }

/-- Formal-parameter metadata (`ArgInfo`).  `type` is `Option` because a
method argument may lack a declared type (null `TypePtr`). -/
structure ArgInfo where
  argName : MName := MName.utf8 ""
  isKeyword : Bool := false
  isDefault : Bool := false
  isRepeated : Bool := false
  isBlock : Bool := false
  /-- `ArgInfo::isSyntheticBlockArgument()`: a block parameter the user did
  not mention. -/
  syntheticBlock : Bool := false
  type : Option Ty := none
deriving DecidableEq, Repr

/-- Per-method symbol-table data consumed by the dispatcher. -/
structure MethodData where
  name : MName := MName.utf8 ""
  owner : ClassId := 0
  /-- All formal parameters, the trailing block parameter included. -/
  arguments : List ArgInfo := []
  resultType : Option Ty := none
  isOverloaded : Bool := false
  isGenericMethod : Bool := false
  typeArgumentsD : List Nat := []
  intrinsic : Option IntrinsicId := none
deriving DecidableEq, Repr

instance : Inhabited MethodData := ⟨{}⟩

/-- Per-class symbol-table data consumed by the dispatcher. -/
structure ClassData where
  members : List (MName × MethodId) := []
  /-- Transitive ancestors in member-resolution order. -/
  ancestors : List ClassId := []
  requiredAncestorsT : List ClassId := []
deriving DecidableEq, Repr

instance : Inhabited ClassData := ⟨{}⟩

/-- The read-only symbol table (`GlobalState`) fragment. -/
structure GlobalState where
  classes : List (ClassId × ClassData) := []
  methods : List MethodData := []
  requiresAncestorEnabled : Bool := false
deriving Repr

def GlobalState.classData (gs : GlobalState) (c : ClassId) : ClassData :=
  ((gs.classes.find? (fun p => decide (p.1 = c))).map Prod.snd).getD {}

def GlobalState.methodData (gs : GlobalState) (m : MethodId) : MethodData :=
  (gs.methods.get? m).getD {}

/-- `findMember(name)` on a class: the class's own member table. -/
def GlobalState.findMember (gs : GlobalState) (c : ClassId) (nm : MName) :
    Option MethodId :=
  (((gs.classData c).members.find? (fun p => decide (p.1 = nm))).map Prod.snd)

/-- `findMemberTransitive(name)`: own members first, then the ancestors in
resolution order. -/
def GlobalState.findMemberTransitive (gs : GlobalState) (c : ClassId)
    (nm : MName) : Option MethodId :=
  match gs.findMember c nm with
  | some m => some m
  | none =>
    ((gs.classData c).ancestors.map (fun a => gs.findMember a nm)).foldl
      (fun acc r => acc.orElse (fun _ => r)) none

/-- `derivesFrom`: reflexive ancestry. -/
def GlobalState.derivesFrom (gs : GlobalState) (c k : ClassId) : Bool :=
  c == k || (gs.classData c).ancestors.contains k

/-- `DispatchComponent` restricted to the fields the claims constrain.
`method = none` models `Symbols::noMethod()` (an unresolved call);
constraint and block plumbing are not modelled. -/
structure DispatchComponent where
  receiver : Ty
  method : Option MethodId
  errors : List ErrKind
deriving DecidableEq, Repr

/-- `DispatchResult`: the `secondary`/`secondaryKind` chain is flattened
into a list of combinator-labelled components. -/
structure DispatchResult where
  returnType : Option Ty
  main : DispatchComponent
  secondaries : List (Combinator × DispatchComponent)
deriving DecidableEq, Repr

/-- Every diagnostic carried anywhere in a result chain. -/
def DispatchResult.errorsAll (r : DispatchResult) : List ErrKind :=
  r.main.errors ++ (r.secondaries.map (fun p => p.2.errors)).flatten

/-- `allComponentsPresent` (lines 64-72): walks the chain; an `AND` link
ends the walk successfully, an `OR` link requires the next component to
resolve as well. -/
def allComponentsPresentL :
    DispatchComponent → List (Combinator × DispatchComponent) → Bool
  | c, rest =>
    if c.method.isNone then false
    else
      match rest with
      | [] => true
      | (k, c') :: rest' =>
        if k = Combinator.AND then true else allComponentsPresentL c' rest'

def allComponentsPresent (r : DispatchResult) : Bool :=
  allComponentsPresentL r.main r.secondaries

/-- Modelled from the spec: the subtype kernel (`isSubType`, `any`, `all`,
`glb`, `approximate*`, `resultTypeAsSeenFrom`, ...) is an external
collaborator "consumed as primitives" (§1) and is not part of the provided
sources.  The embedding is parametrised by it; theorems quantify over the
kernel unless a claim pins a specific spec-described behaviour.  The
argument/block/constraint diagnostics of the symbol-based path (source
lines 732-1122 and 1148-1170), which never touch the return type, are
summarised by two oracle fields: `matcherErrors` for the diagnostics that
path queues on the result (e.g. lines 768, 896, 941, 1082, 1157, 1167 —
queued unconditionally, with no suppression check), and
`matcherEmitErrors` for the ones it sends directly to the global queue
(`KeywordArgHashWithoutSplat` at line 785, `TakesNoBlock` at line 1102 —
likewise emitted regardless of `suppress_errors`). -/
structure Kernel where
  isSubType : Ty → Ty → Bool
  isFullyDefined : Ty → Bool
  anyTy : Ty → Ty → Ty
  allTy : Ty → Ty → Ty
  glb : Ty → Ty → Ty
  approximateSubtract : Ty → Ty → Ty
  dropLiteral : Ty → Ty
  seenFrom : Ty → ClassId → ClassId → List Ty → Ty
  getRepresentedClass : Ty → Option ClassId
  externalType : ClassId → Ty
  matcherErrors : GlobalState → DispatchArgs → ClassId → MethodId → List Ty → List ErrKind
  matcherEmitErrors : GlobalState → DispatchArgs → ClassId → MethodId → List Ty → List ErrKind
  solveOk : List Nat → Bool

/-- Modelled from the spec: `DispatchResult::merge` is declared outside the
provided sources.  Per §4.1/§5 the `OR` combinator surfaces errors from
both sides and combines return types with `any`, `AND` with `all`; the
right chain is appended to the left one under the combinator kind (§3
`secondary`/`secondary_kind`). -/
def DispatchResult.merge (k : Kernel) (kind : Combinator)
    (l r : DispatchResult) : DispatchResult :=
  let combine := match kind with
    | Combinator.OR => k.anyTy
    | Combinator.AND => k.allTy
  { returnType :=
      some (combine (l.returnType.getD untypedTy) (r.returnType.getD untypedTy)),
    main := l.main,
    secondaries := l.secondaries ++ (kind, r.main) :: r.secondaries }

/-- `isSetter` (lines 140-153): a UTF8 name of length ≥ 2 ending in `=`,
excluding the comparison operators. -/
def isSetter (fun_ : MName) : Bool :=
  match fun_ with
  | MName.utf8 s =>
    if s.data.length < 2 then false
    else if s.data.getLast? = some '=' then
      !(s = "<=" || s = ">=" || s = "===" || s = "==" || s = "!=")
    else false
  | MName.uniqueOverload _ _ => false

/-- `getArity` (lines 225-231): the block parameter is not counted. -/
def getArity (gs : GlobalState) (m : MethodId) : Nat :=
  (gs.methodData m).arguments.length - 1

/-- Overload chain recovery (lines 243-257): follow the mangled
`Overload#i` names on the primary's owner while the current method is
marked overloaded.  The walk of the source raises on corrupt tables; the
fuel argument bounds it here. -/
def overloadChainLoop (gs : GlobalState) (primary : MethodId) :
    Nat → Nat → MethodId → List MethodId
  | 0, _, _ => []
  | fuel + 1, i, current =>
    if (gs.methodData current).isOverloaded then
      match gs.findMember (gs.methodData primary).owner
          (MName.uniqueOverload (gs.methodData primary).name (i + 1)) with
      | some overload =>
        overload :: overloadChainLoop gs primary fuel (i + 1) overload
      | none => []
    else []

/-- Insertion step for `fast_sort`'s comparator (lines 259-267): arity
ascending, ties broken by symbol id. -/
def insertByArity (gs : GlobalState) (m : MethodId) :
    List MethodId → List MethodId
  | [] => [m]
  | x :: xs =>
    if getArity gs m < getArity gs x ∨
        (getArity gs m = getArity gs x ∧ m ≤ x) then
      m :: x :: xs
    else x :: insertByArity gs m xs

def sortByArity (gs : GlobalState) (l : List MethodId) : List MethodId :=
  l.foldr (insertByArity gs) []

/-- `allCandidates` of `guessOverload`: the primary and its overload chain,
sorted by arity (stable by symbol id). -/
def overloadCandidates (gs : GlobalState) (primary : MethodId) :
    List MethodId :=
  sortByArity gs
    (primary :: overloadChainLoop gs primary (gs.methods.length + 1) 0 primary)

/-- The `checkArg` lambda (lines 273-290): drop a candidate when `i` is
past its arity, or when its `i`-th formal type, as seen from the receiver,
is fully defined and the actual is not a subtype of it. -/
def checkArgKeep (k : Kernel) (gs : GlobalState) (inClass : ClassId)
    (targs : List Ty) (i : Nat) (argTy : Ty) (c : MethodId) : Bool :=
  if getArity gs c ≤ i then false
  else
    match ((gs.methodData c).arguments.get? i).bind (fun ai => ai.type) with
    | some t =>
      let seen := k.seenFrom t (gs.methodData c).owner inClass targs
      !(k.isFullyDefined seen && !k.isSubType argTy seen)
    | none => true

def checkArgFilter (k : Kernel) (gs : GlobalState) (inClass : ClassId)
    (targs : List Ty) (i : Nat) (argTy : Ty) (cands : List MethodId) :
    List MethodId :=
  cands.filter (checkArgKeep k gs inClass targs i argTy)

/-- The source indexes `args[i]` for `i < numPosArgs ≤ args.size()`. -/
def typeAtArg (args : List TypeAndOrigins) (i : Nat) : Ty :=
  ((args.get? i).getD ⟨untypedTy⟩).type

/-- Positional filtering phase of `guessOverload` (lines 272-301): filter
by each supplied positional argument; when keyword arguments are present,
additionally require the next formal to accept an untyped hash. -/
def overloadPosFiltered (k : Kernel) (gs : GlobalState) (inClass : ClassId)
    (targs : List Ty) (numPosArgs : Nat) (args : List TypeAndOrigins)
    (cands : List MethodId) : List MethodId :=
  let afterPos := (List.range numPosArgs).foldl
    (fun cs i => checkArgFilter k gs inClass targs i (typeAtArg args i) cs)
    cands
  if numPosArgs < args.length then
    checkArgFilter k gs inClass targs numPosArgs hashOfUntypedTy afterPos
  else afterPos

/-- Block-presence test of a candidate (lines 308-319): the candidate
mentions a block argument iff its trailing block parameter is not
synthetic. -/
def mentionsBlockArg (gs : GlobalState) (c : MethodId) : Bool :=
  match (gs.methodData c).arguments.getLast? with
  | some a => !a.syntheticBlock
  | none => false

/-- `guessOverload` (lines 235-347). -/
def guessOverload (k : Kernel) (gs : GlobalState) (inClass : ClassId)
    (primary : MethodId) (numPosArgs : Nat) (args : List TypeAndOrigins)
    (targs : List Ty) (hasBlock : Bool) : MethodId :=
  let allCandidates := overloadCandidates gs primary
  let afterTypes :=
    overloadPosFiltered k gs inClass targs numPosArgs args allCandidates
  let leftCandidates0 := if afterTypes.isEmpty then allCandidates else afterTypes
  let fallback := if afterTypes.isEmpty then primary else afterTypes.headD primary
  let blockFiltered :=
    leftCandidates0.filter (fun c => mentionsBlockArg gs c == hasBlock)
  -- lines 322-341: `equal_range` on the arity-sorted candidates; the
  -- prefix of smaller arities is erased only when a candidate with arity
  -- ≥ args.size() exists (`er.first != leftCandidates.end()`)
  let rest :=
    blockFiltered.dropWhile (fun c => decide (getArity gs c < args.length))
  let arityKept := if rest.isEmpty then blockFiltered else rest
  match arityKept with
  | c :: _ => c
  | [] => fallback

/-- `Tuple_squareBrackets` (lines 2323-2351): single integer-literal index
with negative wrap-around.  The source's out-of-bounds test
`idx >= tuple->elems.size()` compares a signed index against an unsigned
size, so an index that is still negative after the wrap converts to a huge
unsigned value and also takes the nil branch. -/
def Tuple_squareBrackets (gs : GlobalState) (args : DispatchArgs)
    (res : DispatchResult) : DispatchResult :=
  match args.thisType with
  | Ty.tupleType elems =>
    match (if args.args.length = 1 then args.args.head? else none) with
    | some a0 =>
      match a0.type with
      | Ty.litType lv =>
        if gs.derivesFrom lv.underlyingClass Symbols.Integer then
          match lv with
          | LitVal.int n =>
            let idx : Int := if n < 0 then (elems.length : Int) + n else n
            let elemTy := (elems.get? idx.toNat).getD nilTy
            if 0 ≤ idx ∧ idx < (elems.length : Int) then
              { res with returnType := some elemTy }
            else { res with returnType := some nilTy }
          | _ => res
        else res
      | _ => res
    | none => res
  | _ => res

/-- `Tuple_last` (lines 2353-2368). -/
def Tuple_last (args : DispatchArgs) (res : DispatchResult) : DispatchResult :=
  match args.thisType with
  | Ty.tupleType elems =>
    if !args.args.isEmpty then res
    else
      match elems.getLast? with
      | none => { res with returnType := some nilTy }
      | some t => { res with returnType := some t }
  | _ => res

/-- `Tuple_first` (lines 2370-2385). -/
def Tuple_first (args : DispatchArgs) (res : DispatchResult) : DispatchResult :=
  match args.thisType with
  | Ty.tupleType elems =>
    if !args.args.isEmpty then res
    else
      match elems.head? with
      | none => { res with returnType := some nilTy }
      | some t => { res with returnType := some t }
  | _ => res

/-- Modelled from the spec: `TupleType::elementType` (the element join used
by the `Array[...]` underlying projection of a tuple) is defined outside
the provided sources; per §2 every proxy exposes an `underlying(gs)`
projection to a plain applied type, here `Array` of the `any`-join of the
element types. -/
def tupleElementType (k : Kernel) : List Ty → Ty
  | [] => bottomTy
  | e :: rest => rest.foldl k.anyTy e

def tupleUnderlying (k : Kernel) (elems : List Ty) : Ty :=
  Ty.appliedType Symbols.Array [tupleElementType k elems]

/-- `ShapeType::underlying` always returns `T::Hash[T.untyped, T.untyped]`
(source comment, lines 2536-2537). -/
def shapeUnderlying : Ty := hashOfUntypedTy

/-- `Tuple_minMax` (lines 2387-2402), registered for both `min` and `max`. -/
def Tuple_minMax (k : Kernel) (args : DispatchArgs) (res : DispatchResult) :
    DispatchResult :=
  match args.thisType with
  | Ty.tupleType elems =>
    if !args.args.isEmpty then res
    else if elems.isEmpty then { res with returnType := some nilTy }
    else { res with returnType := some (tupleElementType k elems) }
  | _ => res

/-- `Tuple_to_a` (lines 2404-2409). -/
def Tuple_to_a (args : DispatchArgs) (res : DispatchResult) : DispatchResult :=
  { res with returnType := some args.selfType }

def tupleConcatAll (acc : List Ty) : List TypeAndOrigins → Option (List Ty)
  | [] => some acc
  | a :: rest =>
    match a.type with
    | Ty.tupleType es => tupleConcatAll (acc ++ es) rest
    | _ => none

/-- `Tuple_concat` (lines 2411-2427). -/
def Tuple_concat (args : DispatchArgs) (res : DispatchResult) : DispatchResult :=
  match args.thisType with
  | Ty.tupleType elems =>
    match tupleConcatAll elems args.args with
    | some es => { res with returnType := some (Ty.tupleType es) }
    | none => res
  | _ => res

/-- `indexForKey` (lines 2431-2440). -/
def indexForKey (entries : List (LitVal × Ty)) (argLit : LitVal) : Option Nat :=
  entries.findIdx? (fun e => decide (e.1 = argLit))

/-- `Shape_squareBracketsEq` (lines 2489-2548): on a known key, type-check
the value (pinning-style, through `dropLiteral`) and leave the return type
unset so dispatch falls back to `Hash#[]=`; on an unknown key, return
untyped for legacy compatibility.  The mismatch diagnostic goes through
`gs.beginError` directly (line 2512), with no `suppress_errors` check; the
embedding folds it into the result's error list, and
`Shape_squareBracketsEqEmits` records it on the global-queue channel. -/
def Shape_squareBracketsEq (k : Kernel) (args : DispatchArgs)
    (res : DispatchResult) : DispatchResult :=
  match args.thisType with
  | Ty.shapeType entries =>
    match args.args with
    | [a0, a1] =>
      match a0.type with
      | Ty.litType argLit =>
        match indexForKey entries argLit with
        | some idx =>
          let expected := ((entries.get? idx).map Prod.snd).getD untypedTy
          let errs :=
            if !k.isSubType (k.dropLiteral a1.type) (k.dropLiteral expected) then
              [ErrKind.methodArgumentMismatch]
            else []
          { res with main := { res.main with errors := res.main.errors ++ errs } }
        | none => { res with returnType := some untypedTy }
      | _ => res
    | _ => res
  | _ => res

/-- First-match value replacement of `addShapeEntry` (lines 2574-2583):
the original key is kept, only the value at its position changes. -/
def shapeUpdateFirst : List (LitVal × Ty) → LitVal → Ty → List (LitVal × Ty)
  | [], _, _ => []
  | e :: rest, key, v =>
    if e.1 = key then (e.1, v) :: rest else e :: shapeUpdateFirst rest key v

/-- The `addShapeEntry` lambda of `Shape_merge` (lines 2574-2583). -/
def addShapeEntry (entries : List (LitVal × Ty)) (key : LitVal) (v : Ty) :
    List (LitVal × Ty) :=
  if entries.any (fun e => decide (e.1 = key)) then
    shapeUpdateFirst entries key v
  else entries ++ [(key, v)]

/-- Inlined keyword-argument loop of `Shape_merge` (lines 2586-2598): keys
must be symbol literals, otherwise the intrinsic bails out (`none`). -/
def shapeMergeKwPairs (acc : List (LitVal × Ty)) :
    List TypeAndOrigins → Option (List (LitVal × Ty))
  | [] => some acc
  | [_] => some acc
  | karg :: varg :: rest =>
    match karg.type with
    | Ty.litType (LitVal.sym s) =>
      shapeMergeKwPairs (addShapeEntry acc (LitVal.sym s) varg.type) rest
    | _ => none

/-- `Shape_merge` (lines 2550-2610). -/
def Shape_merge (args : DispatchArgs) (res : DispatchResult) : DispatchResult :=
  match args.thisType with
  | Ty.shapeType entries =>
    if args.args.isEmpty || args.block then res
    else
      let nonPosArgs := args.args.length - args.numPosArgs
      let numKwargs := nonPosArgs - nonPosArgs % 2
      let hasKwsplat := nonPosArgs % 2 == 1
      let kwsplatRes : Option (Option (List (LitVal × Ty))) :=
        if hasKwsplat || (numKwargs == 0 && args.args.length == 1) then
          match (args.args.getLast?).map (fun a => a.type) with
          | some (Ty.shapeType se) => some (some se)
          | _ => none
        else some none
      match kwsplatRes with
      | none => res
      | some kwsplat =>
        match shapeMergeKwPairs entries (args.args.take numKwargs) with
        | none => res
        | some afterKw =>
          let finalEntries :=
            match kwsplat with
            | some se => se.foldl (fun acc e => addShapeEntry acc e.1 e.2) afterKw
            | none => afterKw
          { res with returnType := some (Ty.shapeType finalEntries) }
  | _ => res

/-- `Shape_to_hash` (lines 2612-2616). -/
def Shape_to_hash (args : DispatchArgs) (res : DispatchResult) : DispatchResult :=
  { res with returnType := some args.selfType }

/-- `T_must` (lines 1310-1341): strips nil from a fully-defined argument;
when stripping changes nothing, an `InvalidCast` diagnostic is produced
(redundant-`T.must` phrasing for untyped) while the unchanged type is still
returned.  Both diagnostics go through `gs.beginError` directly (lines
1318 and 1325), with no `suppress_errors` check; the embedding folds them
into the result's error list, and `T_mustEmits` records them on the
global-queue channel. -/
def T_must (k : Kernel) (args : DispatchArgs) (res : DispatchResult) :
    DispatchResult :=
  match args.args with
  | [] => res
  | a0 :: _ =>
    if !k.isFullyDefined a0.type then
      { res with main := { res.main with errors :=
          res.main.errors ++ [ErrKind.bareTypeUsage] } }
    else
      let ret := k.approximateSubtract a0.type nilTy
      let errs := if ret = a0.type then [ErrKind.invalidCast] else []
      { res with returnType := some ret,
                 main := { res.main with errors := res.main.errors ++ errs } }

/-- `Module_tripleEq` (lines 2874-2903): an untyped right-hand side is
returned as-is; otherwise the represented class is compared through the
subtype kernel. -/
def Module_tripleEq (k : Kernel) (args : DispatchArgs)
    (res : DispatchResult) : DispatchResult :=
  match args.args with
  | [a0] =>
    let rhs := a0.type
    if rhs.isUntyped then { res with returnType := some rhs }
    else
      match k.getRepresentedClass args.thisType with
      | none => { res with returnType := some booleanTy }
      | some rc =>
        let lhs := k.externalType rc
        if k.isSubType rhs lhs then { res with returnType := some trueTy }
        else if (k.glb rhs lhs).isBottomTy then
          { res with returnType := some falseTy }
        else { res with returnType := some booleanTy }
  | _ => res

/-- `IntrinsicMethod::apply` dispatch for the embedded handlers. -/
def applyIntrinsic (k : Kernel) (gs : GlobalState) (i : IntrinsicId)
    (args : DispatchArgs) (res : DispatchResult) : DispatchResult :=
  match i with
  | IntrinsicId.tupleSquareBrackets => Tuple_squareBrackets gs args res
  | IntrinsicId.tupleFirst => Tuple_first args res
  | IntrinsicId.tupleLast => Tuple_last args res
  | IntrinsicId.tupleMinMax => Tuple_minMax k args res
  | IntrinsicId.tupleToA => Tuple_to_a args res
  | IntrinsicId.tupleConcat => Tuple_concat args res
  | IntrinsicId.shapeSquareBracketsEq => Shape_squareBracketsEq k args res
  | IntrinsicId.shapeMerge => Shape_merge args res
  | IntrinsicId.shapeToHash => Shape_to_hash args res
  | IntrinsicId.tMust => T_must k args res
  | IntrinsicId.moduleTripleEq => Module_tripleEq k args res

def initializeName : MName := MName.utf8 "initialize"

/-- `core::Names::super()`, the super-call sentinel. -/
def superName : MName := MName.utf8 "<super>"

def squareBracketsEqName : MName := MName.utf8 "[]="

/-- Modelled from the spec: `Types::instantiate` (applied at source lines
1174-1176 when the constraint is non-empty and solved) substitutes solved
inference variables (`TypeVar`); the embedded value-type fragment contains
none, so it is the identity. -/
def instantiateFrag (t : Ty) : Ty := t

/-- Modelled from the spec: `Types::replaceSelfType` (applied at source
line 1177) substitutes `T.self_type` occurrences (`SelfTypeParam`); the
embedded value-type fragment contains none, so it is the identity. -/
def replaceSelfTypeFrag (_selfType : Ty) (t : Ty) : Ty := t

/-- Member resolution of the symbol-based path (lines 541-552): transitive
lookup, then the required-ancestors scan when the feature is enabled. -/
def resolveMember (gs : GlobalState) (symbol : ClassId) (nm : MName) :
    Option MethodId :=
  match gs.findMemberTransitive symbol nm with
  | some m => some m
  | none =>
    if gs.requiresAncestorEnabled then
      (((gs.classData symbol).requiredAncestorsT.map
          (fun a => gs.findMemberTransitive a nm)).foldl
        (fun acc r => acc.orElse (fun _ => r)) none)
    else none

/-- The overload disambiguation step (lines 709-712): the overload pick
applies when the resolved member is marked overloaded. -/
def overloadPick (k : Kernel) (gs : GlobalState) (args : DispatchArgs)
    (symbol : ClassId) (targs : List Ty) (mbo : MethodId) : MethodId :=
  if (gs.methodData mbo).isOverloaded then
    guessOverload k gs symbol mbo args.numPosArgs args.args targs args.block
  else mbo

/-- The method finally dispatched to: member resolution followed by the
overload pick. -/
def resolveMethod (k : Kernel) (gs : GlobalState) (args : DispatchArgs)
    (symbol : ClassId) (targs : List Ty) : Option MethodId :=
  (resolveMember gs symbol args.name).map (overloadPick k gs args symbol targs)

/-- The dispatch result right after intrinsic application (line 1126):
the component for the resolved method, carrying the matcher diagnostics,
with the method's intrinsic (if any) applied to it.  The matcher queues
its diagnostics on the result unconditionally (e.g. lines 768, 896, 941,
1082); `suppress_errors` is consulted only at lines 533, 561 and 574. -/
def intrinsicResult (k : Kernel) (gs : GlobalState) (args : DispatchArgs)
    (symbol : ClassId) (targs : List Ty) (m : MethodId) : DispatchResult :=
  let matchErrs := k.matcherErrors gs args symbol m targs
  let base : DispatchResult :=
    { returnType := none,
      main := { receiver := args.selfType, method := some m,
                errors := matchErrs },
      secondaries := [] }
  match (gs.methodData m).intrinsic with
  | some i => applyIntrinsic k gs i args base
  | none => base

/-- Domain of the per-call `TypeConstraint` (lines 720-731): non-empty
exactly for generic methods (a fresh constraint allocated for a block-only
call declares no type parameters and stays empty). -/
def constraintDomain (d : MethodData) : List Nat :=
  if d.isGenericMethod then d.typeArgumentsD else []

/-- A no-method untyped result (`DispatchResult(untyped, selfType,
Symbols::noMethod())`). -/
def unresolvedResult (selfType : Ty) (errors : List ErrKind) : DispatchResult :=
  { returnType := some untypedTy,
    main := { receiver := selfType, method := none, errors := errors },
    secondaries := [] }

/-- `dispatchCallSymbol` (lines 527-1183).  The argument matcher, block
matcher and constraint solver (lines 732-1122, 1148-1170) append
diagnostics without ever touching the return type; the embedding
summarises the ones they queue on the result through
`Kernel.matcherErrors` (queued unconditionally) and the ones they send
directly to the global queue through `Kernel.matcherEmitErrors` (see
`dispatchCallSymbolEmits`).  `suppress_errors` is consulted exactly where
the source checks it: the void branch (line 533), the `initialize`
arity error (line 561) and the `UnknownMethod` short-circuit (line 574). -/
def dispatchCallSymbol (k : Kernel) (gs : GlobalState) (args : DispatchArgs)
    (symbol : ClassId) (targs : List Ty) : DispatchResult :=
  if symbol = Symbols.untyped then
    unresolvedResult args.selfType []
  else if symbol = Symbols.voidC then
    unresolvedResult args.selfType
      (if args.suppressErrors then [] else [ErrKind.unknownMethod])
  else
    match resolveMember gs symbol args.name with
    | none =>
      if args.name = initializeName then
        unresolvedResult args.selfType
          (if !args.args.isEmpty && !args.suppressErrors then
            [ErrKind.methodArgumentCountMismatch]
          else [])
      else if args.name = superName then
        unresolvedResult args.selfType []
      else
        unresolvedResult args.selfType
          (if args.suppressErrors then [] else [ErrKind.unknownMethod])
    | some mbo =>
      let m := overloadPick k gs args symbol targs mbo
      let d := gs.methodData m
      let res1 := intrinsicResult k gs args symbol targs m
      -- return-type computation (lines 1137-1147)
      let rt0 : Option Ty :=
        match res1.returnType with
        | some t => some t
        | none =>
          if args.args.length = 1 && isSetter d.name then
            (args.args.head?).map (fun a => a.type)
          else if args.args.length = 2 && decide (d.name = squareBracketsEqName) then
            (args.args.get? 1).map (fun a => a.type)
          else
            d.resultType.map (fun rt => k.seenFrom rt d.owner symbol targs)
      -- lines 1172-1177
      let dom := constraintDomain d
      let rt1 :=
        match rt0 with
        | none => untypedTy
        | some t =>
          if !dom.isEmpty && !args.block && k.solveOk dom then
            instantiateFrag t
          else t
      { res1 with returnType := some (replaceSelfTypeFrag args.selfType rt1) }

/-- `dispatchCall` over the lattice: `ClassType`/`AppliedType` (lines
1185-1194), `LiteralType` (41-43), `ShapeType` (111-123), `TupleType`
(125-137), `OrType` (45-50) and `AndType` (74-97). -/
def dispatchCall (k : Kernel) (gs : GlobalState) :
    Ty → DispatchArgs → DispatchResult
  | Ty.classType sym, args => dispatchCallSymbol k gs args sym []
  | Ty.appliedType sym targs, args => dispatchCallSymbol k gs args sym targs
  | Ty.litType v, args =>
    dispatchCallSymbol k gs (args.withThisRef v.underlyingTy)
      v.underlyingClass []
  | Ty.shapeType _, args =>
    let proxy := dispatchCallSymbol k gs (args.withThisRef shapeUnderlying)
      Symbols.Hash [untypedTy, untypedTy]
    (match gs.findMember Symbols.Shape args.name with
     | some m =>
       match (gs.methodData m).intrinsic with
       | some i =>
         let comp : DispatchComponent :=
           { receiver := args.selfType, method := some m, errors := [] }
         let res := applyIntrinsic k gs i args
           { returnType := none, main := comp, secondaries := [] }
         if res.returnType.isSome then res else proxy
       | none => proxy
     | none => proxy)
  | Ty.tupleType elems, args =>
    let proxy := dispatchCallSymbol k gs
      (args.withThisRef (tupleUnderlying k elems)) Symbols.Array
      [tupleElementType k elems]
    (match gs.findMember Symbols.Tuple args.name with
     | some m =>
       match (gs.methodData m).intrinsic with
       | some i =>
         let comp : DispatchComponent :=
           { receiver := args.selfType, method := some m, errors := [] }
         let res := applyIntrinsic k gs i args
           { returnType := none, main := comp, secondaries := [] }
         if res.returnType.isSome then res else proxy
       | none => proxy
     | none => proxy)
  | Ty.orType l r, args =>
    DispatchResult.merge k Combinator.OR
      (dispatchCall k gs l (args.withSelfRef l))
      (dispatchCall k gs r (args.withSelfRef r))
  | Ty.andType l r, args =>
    let leftRet := dispatchCall k gs l ((args.withThisRef l).withErrorsSuppressed)
    let rightRet := dispatchCall k gs r ((args.withThisRef r).withErrorsSuppressed)
    let leftOk := allComponentsPresent leftRet
    let rightOk := allComponentsPresent rightRet
    if leftOk && !rightOk then leftRet
    else if rightOk && !leftOk then rightRet
    else
      let leftRet2 :=
        if !rightOk && !leftOk then dispatchCall k gs l (args.withThisRef l)
        else leftRet
      let rightRet2 :=
        if !rightOk && !leftOk then dispatchCall k gs r (args.withThisRef r)
        else rightRet
      DispatchResult.merge k Combinator.AND leftRet2 rightRet2

/-- The diagnostics `T_must` sends directly to the global queue
(`gs.beginError` at lines 1318 and 1325): neither queued on the result nor
gated on `suppress_errors`, so they escape even when the enclosing result
is discarded. -/
def T_mustEmits (k : Kernel) (args : DispatchArgs) : List ErrKind :=
  match args.args with
  | [] => []
  | a0 :: _ =>
    if !k.isFullyDefined a0.type then [ErrKind.bareTypeUsage]
    else if k.approximateSubtract a0.type nilTy = a0.type then
      [ErrKind.invalidCast]
    else []

/-- The diagnostic `Shape_squareBracketsEq` sends directly to the global
queue (`gs.beginError` at line 2512): neither queued on the result nor
gated on `suppress_errors`. -/
def Shape_squareBracketsEqEmits (k : Kernel) (args : DispatchArgs) :
    List ErrKind :=
  match args.thisType with
  | Ty.shapeType entries =>
    match args.args with
    | [a0, a1] =>
      match a0.type with
      | Ty.litType argLit =>
        match indexForKey entries argLit with
        | some idx =>
          let expected := ((entries.get? idx).map Prod.snd).getD untypedTy
          if !k.isSubType (k.dropLiteral a1.type) (k.dropLiteral expected) then
            [ErrKind.methodArgumentMismatch]
          else []
        | none => []
      | _ => []
    | _ => []
  | _ => []

/-- Global-queue emissions of the embedded intrinsic handlers.  Of the
embedded handlers only `T_must` and `Shape_squareBracketsEq` emit
directly; the others produce no diagnostics at all. -/
def intrinsicEmits (k : Kernel) (i : IntrinsicId) (args : DispatchArgs) :
    List ErrKind :=
  match i with
  | IntrinsicId.tMust => T_mustEmits k args
  | IntrinsicId.shapeSquareBracketsEq => Shape_squareBracketsEqEmits k args
  | _ => []

/-- Global-queue emissions of the symbol-based path: the void branch's
direct emission (line 533, the one direct site that is gated), and for a
resolved method the matcher's direct emissions (lines 785, 1102) followed
by the intrinsic's (applied at line 1126, after matching).  Everything
else on this path is queued on the result, not emitted. -/
def dispatchCallSymbolEmits (k : Kernel) (gs : GlobalState)
    (args : DispatchArgs) (symbol : ClassId) (targs : List Ty) :
    List ErrKind :=
  if symbol = Symbols.untyped then []
  else if symbol = Symbols.voidC then
    (if args.suppressErrors then [] else [ErrKind.unknownMethod])
  else
    match resolveMember gs symbol args.name with
    | none => []
    | some mbo =>
      let m := overloadPick k gs args symbol targs mbo
      k.matcherEmitErrors gs args symbol m targs ++
        (match (gs.methodData m).intrinsic with
         | some i => intrinsicEmits k i args
         | none => [])

/-- The global-queue channel of a dispatch: every diagnostic the source
sends directly via `gs.beginError` while evaluating the call, mirroring
the control flow of `dispatchCall`.  In particular the intersection case
(lines 74-97) always runs both suppressed sub-dispatches — their direct
emissions happen even on the side whose result is then discarded — and
re-runs both unsuppressed when neither side resolves. -/
def dispatchCallEmits (k : Kernel) (gs : GlobalState) :
    Ty → DispatchArgs → List ErrKind
  | Ty.classType sym, args => dispatchCallSymbolEmits k gs args sym []
  | Ty.appliedType sym targs, args =>
    dispatchCallSymbolEmits k gs args sym targs
  | Ty.litType v, args =>
    dispatchCallSymbolEmits k gs (args.withThisRef v.underlyingTy)
      v.underlyingClass []
  | Ty.shapeType _, args =>
    let proxyEmits := dispatchCallSymbolEmits k gs
      (args.withThisRef shapeUnderlying) Symbols.Hash [untypedTy, untypedTy]
    (match gs.findMember Symbols.Shape args.name with
     | some m =>
       match (gs.methodData m).intrinsic with
       | some i =>
         let comp : DispatchComponent :=
           { receiver := args.selfType, method := some m, errors := [] }
         let res := applyIntrinsic k gs i args
           { returnType := none, main := comp, secondaries := [] }
         intrinsicEmits k i args ++
           (if res.returnType.isSome then [] else proxyEmits)
       | none => proxyEmits
     | none => proxyEmits)
  | Ty.tupleType elems, args =>
    let proxyEmits := dispatchCallSymbolEmits k gs
      (args.withThisRef (tupleUnderlying k elems)) Symbols.Array
      [tupleElementType k elems]
    (match gs.findMember Symbols.Tuple args.name with
     | some m =>
       match (gs.methodData m).intrinsic with
       | some i =>
         let comp : DispatchComponent :=
           { receiver := args.selfType, method := some m, errors := [] }
         let res := applyIntrinsic k gs i args
           { returnType := none, main := comp, secondaries := [] }
         intrinsicEmits k i args ++
           (if res.returnType.isSome then [] else proxyEmits)
       | none => proxyEmits
     | none => proxyEmits)
  | Ty.orType l r, args =>
    dispatchCallEmits k gs l (args.withSelfRef l) ++
      dispatchCallEmits k gs r (args.withSelfRef r)
  | Ty.andType l r, args =>
    let leftRet := dispatchCall k gs l ((args.withThisRef l).withErrorsSuppressed)
    let rightRet := dispatchCall k gs r ((args.withThisRef r).withErrorsSuppressed)
    let base :=
      dispatchCallEmits k gs l ((args.withThisRef l).withErrorsSuppressed) ++
        dispatchCallEmits k gs r ((args.withThisRef r).withErrorsSuppressed)
    if !allComponentsPresent leftRet && !allComponentsPresent rightRet then
      base ++ dispatchCallEmits k gs l (args.withThisRef l) ++
        dispatchCallEmits k gs r (args.withThisRef r)
    else base

/-- First-match lookup of a shape key (the semantics of `indexForKey`
composed with the value array). -/
def shapeLookupKey (entries : List (LitVal × Ty)) (key : LitVal) : Option Ty :=
  (entries.find? (fun e => decide (e.1 = key))).map Prod.snd

/-- Modelled from the spec: `Types::approximateSubtract` applied to
`NilClass` "strips nil" (§4.6: `must(x)` strips nil, §4.1): nil components
of a union are removed; a bare nil leaves bottom; anything else is
unchanged. -/
def subtractNil : Ty → Ty
  | Ty.orType l r =>
    let l' := subtractNil l
    let r' := subtractNil r
    if l'.isBottomTy then r'
    else if r'.isBottomTy then l'
    else Ty.orType l' r'
  | t => if t = nilTy then bottomTy else t

/-- A concrete kernel instance grounding witnesses and counterexamples:
structural equality as subtyping, the union/intersection constructors as
joins, `subtractNil` as the nil-stripping subtraction, and no matcher
diagnostics. -/
def defaultKernel : Kernel :=
  { isSubType := fun a b => decide (a = b),
    isFullyDefined := fun _ => true,
    anyTy := Ty.orType,
    allTy := Ty.andType,
    glb := fun a b => if a = b then a else bottomTy,
    approximateSubtract := fun t w => if w = nilTy then subtractNil t else t,
    dropLiteral := fun t =>
      match t with
      | Ty.litType v => v.underlyingTy
      | _ => t,
    seenFrom := fun t _ _ _ => t,
    getRepresentedClass := fun t =>
      match t with
      | Ty.classType c => some c
      | _ => none,
    externalType := fun c => Ty.classType c,
    matcherErrors := fun _ _ _ _ _ => [],
    matcherEmitErrors := fun _ _ _ _ _ => [],
    solveOk := fun _ => true }

/-- A fresh result for feeding an intrinsic directly. -/
def emptyResult : DispatchResult :=
  { returnType := none,
    main := { receiver := untypedTy, method := none, errors := [] },
    secondaries := [] }

/-- A synthetic (unmentioned) trailing block parameter. -/
def syntheticBlockArg : ArgInfo :=
  { isBlock := true, syntheticBlock := true }

/-- A user-written trailing block parameter. -/
def realBlockArg : ArgInfo :=
  { isBlock := true, syntheticBlock := false }

/-- Symbol table for the intersection scenario: the `Shape#[]=` intrinsic
entry (registry line 2959) and a class 40 defining a plain `[]=`.  `Hash`
has no entry, so the shape side's proxy fall-through resolves nothing. -/
def gsEmit : GlobalState :=
  { classes :=
      [(Symbols.Shape, { members := [(MName.utf8 "[]=", 0)] }),
       (40, { members := [(MName.utf8 "[]=", 1)] })],
    methods :=
      [{ name := MName.utf8 "[]=", owner := Symbols.Shape,
         arguments := [{}, {}, syntheticBlockArg],
         intrinsic := some IntrinsicId.shapeSquareBracketsEq },
       { name := MName.utf8 "[]=", owner := 40,
         arguments := [{}, {}, syntheticBlockArg],
         resultType := some nilTy }] }

/-- The shape receiver `{a: Integer}` of the intersection scenario. -/
def shapeRecv : Ty := Ty.shapeType [(LitVal.sym "a", integerTy)]

/-- The call `[]=(:a, "str")` on the intersection
`shapeRecv ∧ classType 40`: the shape side's intrinsic rejects the value
type and resolves nothing, the class side resolves its `[]=`. -/
def argsEmit : DispatchArgs :=
  { name := MName.utf8 "[]=",
    numPosArgs := 2,
    args := [⟨Ty.litType (LitVal.sym "a")⟩, ⟨stringTy⟩],
    selfType := Ty.andType shapeRecv (Ty.classType 40),
    fullType := Ty.andType shapeRecv (Ty.classType 40),
    thisType := Ty.andType shapeRecv (Ty.classType 40),
    block := false }

/-- Symbol table for the overload scenario: class 5 owns an overloaded
primary `f` (method 0, arity 0, synthetic block) and its mangled
`Overload#1` (method 1, arity 1 with an `Integer` formal, real block). -/
def gsOv : GlobalState :=
  { classes :=
      [(5, { members :=
          [(MName.utf8 "f", 0),
           (MName.uniqueOverload (MName.utf8 "f") 1, 1)] })],
    methods :=
      [{ name := MName.utf8 "f", owner := 5,
         arguments := [syntheticBlockArg], isOverloaded := true },
       { name := MName.uniqueOverload (MName.utf8 "f") 1, owner := 5,
         arguments := [{ type := some integerTy }, realBlockArg] }] }

/-- Symbol table with the `Shape#[]=` intrinsic entry of the registry
(line 2959) and an ordinary setter `x=` on class 20. -/
def gsShape : GlobalState :=
  { classes :=
      [(Symbols.Shape,
        { members := [(MName.utf8 "[]=", 0)] }),
       (20, { members := [(MName.utf8 "x=", 1)] })],
    methods :=
      [{ name := MName.utf8 "[]=", owner := Symbols.Shape,
         arguments := [{}, {}, syntheticBlockArg],
         intrinsic := some IntrinsicId.shapeSquareBracketsEq },
       { name := MName.utf8 "x=", owner := 20,
         arguments := [{ type := some integerTy }, syntheticBlockArg],
         resultType := some nilTy }] }

/-- The `[]=` call on an empty shape receiver with a symbol-literal key
and an `Integer` value. -/
def argsShapeAssign : DispatchArgs :=
  { name := MName.utf8 "[]=",
    numPosArgs := 2,
    args := [⟨Ty.litType (LitVal.sym "a")⟩, ⟨integerTy⟩],
    selfType := Ty.shapeType [],
    fullType := Ty.shapeType [],
    thisType := Ty.shapeType [],
    block := false }

/-- An empty symbol table. -/
def emptyGS : GlobalState := {}

/-- A setter call `x = 1` (one `Integer` argument) on class 20. -/
def argsSetter : DispatchArgs :=
  { name := MName.utf8 "x=",
    numPosArgs := 1,
    args := [⟨integerTy⟩],
    selfType := Ty.classType 20,
    fullType := Ty.classType 20,
    thisType := Ty.classType 20,
    block := false }

/-- A `[]` call with a single integer-literal index on the tuple
`[Integer, String]`. -/
def argsTup (n : Int) : DispatchArgs :=
  { name := MName.utf8 "[]",
    numPosArgs := 1,
    args := [⟨Ty.litType (LitVal.int n)⟩],
    selfType := Ty.tupleType [integerTy, stringTy],
    fullType := Ty.tupleType [integerTy, stringTy],
    thisType := Ty.tupleType [integerTy, stringTy],
    block := false }

/-- A `T.must(x)` call carrying a single argument of type `t`. -/
def argsMust (t : Ty) : DispatchArgs :=
  { name := MName.utf8 "must",
    numPosArgs := 1,
    args := [⟨t⟩],
    selfType := untypedTy,
    fullType := untypedTy,
    thisType := untypedTy,
    block := false }

/-- A no-argument call on the empty tuple receiver. -/
def argsTupEmpty (nm : String) : DispatchArgs :=
  { name := MName.utf8 nm,
    numPosArgs := 0,
    args := [],
    selfType := Ty.tupleType [],
    fullType := Ty.tupleType [],
    thisType := Ty.tupleType [],
    block := false }

/-- C1: for every method name and every argument list, dispatching a call
on the `Untyped` receiver type returns an `Untyped` return type, resolves
no method, and emits no diagnostics (source lines 527-531; the untyped
check precedes everything else in `dispatchCallSymbol`). -/
theorem untyped_absorbs_dispatch (k : Kernel) (gs : GlobalState)
    (args : DispatchArgs) :
    (dispatchCall k gs untypedTy args).returnType = some untypedTy ∧
    (dispatchCall k gs untypedTy args).main.method = none ∧
    (dispatchCall k gs untypedTy args).errorsAll = [] :=
  ⟨rfl, rfl, rfl⟩

/-- C3: dispatch on a union `A ∪ B` computes the two sub-dispatches with
`this_type` narrowed to the respective component, merges them with the OR
combinator so that the errors of both sides surface, and the merged return
type is `any` of the two return types (source lines 45-50). -/
theorem or_dispatch_merges (k : Kernel) (gs : GlobalState) (a b : Ty)
    (args : DispatchArgs) :
    dispatchCall k gs (Ty.orType a b) args =
      DispatchResult.merge k Combinator.OR
        (dispatchCall k gs a (args.withSelfRef a))
        (dispatchCall k gs b (args.withSelfRef b)) ∧
    (args.withSelfRef a).thisType = a ∧
    (args.withSelfRef b).thisType = b ∧
    (dispatchCall k gs (Ty.orType a b) args).returnType =
      some (k.anyTy
        ((dispatchCall k gs a (args.withSelfRef a)).returnType.getD untypedTy)
        ((dispatchCall k gs b (args.withSelfRef b)).returnType.getD untypedTy)) ∧
    (dispatchCall k gs (Ty.orType a b) args).errorsAll =
      (dispatchCall k gs a (args.withSelfRef a)).errorsAll ++
        (dispatchCall k gs b (args.withSelfRef b)).errorsAll := by
  refine ⟨rfl, rfl, rfl, rfl, ?_⟩
  show (DispatchResult.merge k Combinator.OR _ _).errorsAll = _
  simp [DispatchResult.merge, DispatchResult.errorsAll, List.append_assoc]

/-- C6: `Tuple#[]` with a single integer-literal index wraps a negative
index by the tuple length, returns the element type at an in-bounds
effective index and `NilClass` otherwise; on `[Integer, String]`, index 0
gives `Integer`, -1 gives `String`, 2 gives `Nil` (lines 2323-2351). -/
theorem tuple_squareBrackets_indexing (gs : GlobalState)
    (args : DispatchArgs) (res : DispatchResult) (elems : List Ty) (n : Int)
    (hthis : args.thisType = Ty.tupleType elems)
    (hargs : args.args = [⟨Ty.litType (LitVal.int n)⟩]) :
    (Tuple_squareBrackets gs args res).returnType =
      some
        (if 0 ≤ (if n < 0 then (elems.length : Int) + n else n) ∧
            (if n < 0 then (elems.length : Int) + n else n) <
              (elems.length : Int) then
          (elems.get? (if n < 0 then (elems.length : Int) + n else n).toNat).getD
            nilTy
        else nilTy) ∧
    (Tuple_squareBrackets emptyGS (argsTup 0) emptyResult).returnType =
      some integerTy ∧
    (Tuple_squareBrackets emptyGS (argsTup (-1)) emptyResult).returnType =
      some stringTy ∧
    (Tuple_squareBrackets emptyGS (argsTup 2) emptyResult).returnType =
      some nilTy := by
  refine ⟨?_, by decide, by decide, by decide⟩
  simp [Tuple_squareBrackets, hthis, hargs, GlobalState.derivesFrom,
    LitVal.underlyingClass]
  split <;> rename_i h2 <;> split <;> rename_i h3 <;> rfl

/-- Witness for `tuple_squareBrackets_indexing` at tuple `[Integer]` and
index 0. -/
theorem tuple_squareBrackets_indexing_witness :
    (argsTup 0).thisType = Ty.tupleType [integerTy, stringTy] ∧
    (argsTup 0).args = [⟨Ty.litType (LitVal.int 0)⟩] ∧
    (Tuple_squareBrackets emptyGS (argsTup 0) emptyResult).returnType =
      some
        (if 0 ≤ (if (0 : Int) < 0 then (([integerTy, stringTy] : List Ty).length : Int) + 0 else 0) ∧
            (if (0 : Int) < 0 then (([integerTy, stringTy] : List Ty).length : Int) + 0 else 0) <
              (([integerTy, stringTy] : List Ty).length : Int) then
          (([integerTy, stringTy] : List Ty).get?
              (if (0 : Int) < 0 then (([integerTy, stringTy] : List Ty).length : Int) + 0 else 0).toNat).getD
            nilTy
        else nilTy) :=
  ⟨rfl, rfl,
    (tuple_squareBrackets_indexing emptyGS (argsTup 0) emptyResult
      [integerTy, stringTy] 0 rfl rfl).1⟩

/-- C9: on the empty tuple receiver, the intrinsics for `first`, `last`,
`min` and `max` (the latter two share `Tuple_minMax`, registry lines
2952-2955) with no arguments all return `NilClass` (lines 2353-2402). -/
theorem tuple_empty_first_last_min_max (k : Kernel) (args : DispatchArgs)
    (res : DispatchResult)
    (hthis : args.thisType = Ty.tupleType [])
    (hargs : args.args = []) :
    (Tuple_first args res).returnType = some nilTy ∧
    (Tuple_last args res).returnType = some nilTy ∧
    (Tuple_minMax k args res).returnType = some nilTy := by
  refine ⟨?_, ?_, ?_⟩ <;>
    simp [Tuple_first, Tuple_last, Tuple_minMax, hthis, hargs]

/-- `DispatchResult.merge` surfaces the errors of both sides. -/
theorem merge_errorsAll (k : Kernel) (kind : Combinator)
    (l r : DispatchResult) :
    (DispatchResult.merge k kind l r).errorsAll =
      l.errorsAll ++ r.errorsAll := by
  simp [DispatchResult.merge, DispatchResult.errorsAll, List.append_assoc]

/-- C2 counterexample: on the intersection `{a: Integer} ∧ classType 40`
only the class side resolves `[]=`, yet the call `[]=(:a, "str")` makes
the discarded shape side emit `Shape#[]=`'s `MethodArgumentMismatch`
directly to the global queue (line 2512), suppression notwithstanding: a
diagnostic from the non-resolving side is emitted. -/
theorem and_dispatch_emission_counterexample :
    allComponentsPresent
      (dispatchCall defaultKernel gsEmit (Ty.classType 40)
        ((argsEmit.withThisRef (Ty.classType 40)).withErrorsSuppressed)) =
      true ∧
    allComponentsPresent
      (dispatchCall defaultKernel gsEmit shapeRecv
        ((argsEmit.withThisRef shapeRecv).withErrorsSuppressed)) = false ∧
    dispatchCallEmits defaultKernel gsEmit
        (Ty.andType shapeRecv (Ty.classType 40)) argsEmit =
      [ErrKind.methodArgumentMismatch] ∧
    dispatchCallEmits defaultKernel gsEmit shapeRecv
        ((argsEmit.withThisRef shapeRecv).withErrorsSuppressed) =
      [ErrKind.methodArgumentMismatch] ∧
    dispatchCallEmits defaultKernel gsEmit (Ty.classType 40)
        ((argsEmit.withThisRef (Ty.classType 40)).withErrorsSuppressed) =
      [] := by
  decide

/-- C2 amended: when exactly one side of an intersection `A ∧ B` fully
resolves the method (as tested with `all_components_present` on the
suppressed sub-dispatches), the intersection dispatch returns the
resolving side's dispatch result as-is — so none of the non-resolving
side's result-queued diagnostics are retained — while the global-queue
emissions of the dispatch are exactly those of the two suppressed
sub-dispatches, the non-resolving side's included (lines 64-97). -/
theorem and_dispatch_short_circuit (k : Kernel) (gs : GlobalState)
    (a b : Ty) (args : DispatchArgs) :
    (allComponentsPresent
        (dispatchCall k gs a ((args.withThisRef a).withErrorsSuppressed)) =
          true →
      allComponentsPresent
        (dispatchCall k gs b ((args.withThisRef b).withErrorsSuppressed)) =
          false →
      dispatchCall k gs (Ty.andType a b) args =
        dispatchCall k gs a ((args.withThisRef a).withErrorsSuppressed) ∧
      dispatchCallEmits k gs (Ty.andType a b) args =
        dispatchCallEmits k gs a ((args.withThisRef a).withErrorsSuppressed) ++
          dispatchCallEmits k gs b
            ((args.withThisRef b).withErrorsSuppressed)) ∧
    (allComponentsPresent
        (dispatchCall k gs b ((args.withThisRef b).withErrorsSuppressed)) =
          true →
      allComponentsPresent
        (dispatchCall k gs a ((args.withThisRef a).withErrorsSuppressed)) =
          false →
      dispatchCall k gs (Ty.andType a b) args =
        dispatchCall k gs b ((args.withThisRef b).withErrorsSuppressed) ∧
      dispatchCallEmits k gs (Ty.andType a b) args =
        dispatchCallEmits k gs a ((args.withThisRef a).withErrorsSuppressed) ++
          dispatchCallEmits k gs b
            ((args.withThisRef b).withErrorsSuppressed)) := by
  constructor
  · intro hl hr
    constructor
    · show (dispatchCall k gs (Ty.andType a b) args) = _
      simp [dispatchCall, hl, hr]
    · show (dispatchCallEmits k gs (Ty.andType a b) args) = _
      simp [dispatchCallEmits, hl, hr]
  · intro hr hl
    constructor
    · show (dispatchCall k gs (Ty.andType a b) args) = _
      simp [dispatchCall, hl, hr]
    · show (dispatchCallEmits k gs (Ty.andType a b) args) = _
      simp [dispatchCallEmits, hl, hr]

/-- Witness for `and_dispatch_short_circuit` on the intersection
`{a: Integer} ∧ classType 40`, where only the class side resolves. -/
theorem and_dispatch_short_circuit_witness :
    allComponentsPresent
      (dispatchCall defaultKernel gsEmit (Ty.classType 40)
        ((argsEmit.withThisRef (Ty.classType 40)).withErrorsSuppressed)) =
      true ∧
    allComponentsPresent
      (dispatchCall defaultKernel gsEmit shapeRecv
        ((argsEmit.withThisRef shapeRecv).withErrorsSuppressed)) = false ∧
    (dispatchCall defaultKernel gsEmit
        (Ty.andType shapeRecv (Ty.classType 40)) argsEmit =
      dispatchCall defaultKernel gsEmit (Ty.classType 40)
        ((argsEmit.withThisRef (Ty.classType 40)).withErrorsSuppressed) ∧
      dispatchCallEmits defaultKernel gsEmit
          (Ty.andType shapeRecv (Ty.classType 40)) argsEmit =
        dispatchCallEmits defaultKernel gsEmit shapeRecv
            ((argsEmit.withThisRef shapeRecv).withErrorsSuppressed) ++
          dispatchCallEmits defaultKernel gsEmit (Ty.classType 40)
            ((argsEmit.withThisRef (Ty.classType 40)).withErrorsSuppressed)) :=
  ⟨by decide, by decide,
    (and_dispatch_short_circuit defaultKernel gsEmit shapeRecv
      (Ty.classType 40) argsEmit).2 (by decide) (by decide)⟩

/-- Membership in a dropWhile result implies membership in the list. -/
theorem mem_of_mem_dropWhile {α : Type} {p : α → Bool} {l : List α} {a : α}
    (h : a ∈ l.dropWhile p) : a ∈ l := by
  induction l with
  | nil => simp at h
  | cons x xs ih =>
    by_cases hp : p x = true
    · rw [List.dropWhile_cons_of_pos hp] at h
      exact List.mem_cons_of_mem _ (ih h)
    · rw [List.dropWhile_cons_of_neg hp] at h
      exact h

/-- Surviving `checkArg` at index `i` means the arity exceeds `i`. -/
theorem checkArgKeep_arity {k : Kernel} {gs : GlobalState}
    {inClass : ClassId} {targs : List Ty} {i : Nat} {argTy : Ty}
    {c : MethodId}
    (h : checkArgKeep k gs inClass targs i argTy c = true) :
    i < getArity gs c := by
  unfold checkArgKeep at h
  by_cases hle : getArity gs c ≤ i
  · rw [if_pos hle] at h
    exact absurd h (by simp)
  · omega

theorem mem_checkArgFilter {k : Kernel} {gs : GlobalState}
    {inClass : ClassId} {targs : List Ty} {i : Nat} {argTy : Ty}
    {c : MethodId} {cands : List MethodId}
    (h : c ∈ checkArgFilter k gs inClass targs i argTy cands) :
    c ∈ cands ∧ checkArgKeep k gs inClass targs i argTy c = true :=
  List.mem_filter.mp h

/-- Every survivor of the positional filtering phase has arity at least
the number of supplied positional arguments. -/
theorem mem_overloadPosFiltered_arity {k : Kernel} {gs : GlobalState}
    {inClass : ClassId} {targs : List Ty} {numPosArgs : Nat}
    {args : List TypeAndOrigins} {c : MethodId} {cands : List MethodId}
    (h : c ∈ overloadPosFiltered k gs inClass targs numPosArgs args cands) :
    numPosArgs ≤ getArity gs c := by
  unfold overloadPosFiltered at h
  have h1 : c ∈ (List.range numPosArgs).foldl
      (fun cs i => checkArgFilter k gs inClass targs i (typeAtArg args i) cs)
      cands := by
    by_cases hk : numPosArgs < args.length
    · rw [if_pos hk] at h
      exact (mem_checkArgFilter h).1
    · rwa [if_neg hk] at h
  cases hn : numPosArgs with
  | zero => omega
  | succ n =>
    rw [hn, List.range_succ, List.foldl_append, List.foldl_cons,
      List.foldl_nil] at h1
    have h2 := (mem_checkArgFilter h1).2
    have h3 := checkArgKeep_arity h2
    omega

/-- When the positional filter leaves a survivor, `guessOverload` returns
one of the survivors. -/
theorem guessOverload_mem_filtered (k : Kernel) (gs : GlobalState)
    (inClass : ClassId) (primary : MethodId) (numPosArgs : Nat)
    (args : List TypeAndOrigins) (targs : List Ty) (hasBlock : Bool)
    (h : overloadPosFiltered k gs inClass targs numPosArgs args
        (overloadCandidates gs primary) ≠ []) :
    guessOverload k gs inClass primary numPosArgs args targs hasBlock ∈
      overloadPosFiltered k gs inClass targs numPosArgs args
        (overloadCandidates gs primary) := by
  have he : (overloadPosFiltered k gs inClass targs numPosArgs args
      (overloadCandidates gs primary)).isEmpty = false := by
    cases hF : overloadPosFiltered k gs inClass targs numPosArgs args
        (overloadCandidates gs primary) with
    | nil => exact absurd hF h
    | cons x xs => rfl
  unfold guessOverload
  simp only [he, Bool.false_eq_true, if_false]
  split
  · rename_i c l heq
    split at heq
    · rename_i hrest
      -- arityKept = blockFiltered
      have hc : c ∈ (overloadPosFiltered k gs inClass targs numPosArgs args
          (overloadCandidates gs primary)).filter
            (fun c => mentionsBlockArg gs c == hasBlock) := by
        rw [heq]; exact List.mem_cons_self c l
      exact (List.mem_filter.mp hc).1
    · rename_i hrest
      -- arityKept = dropWhile ...
      have hc : c ∈ ((overloadPosFiltered k gs inClass targs numPosArgs args
          (overloadCandidates gs primary)).filter
            (fun c => mentionsBlockArg gs c == hasBlock)).dropWhile
              (fun c => decide (getArity gs c < args.length)) := by
        rw [heq]; exact List.mem_cons_self c l
      exact (List.mem_filter.mp (mem_of_mem_dropWhile hc)).1
  · -- arityKept empty: the fallback is the head of the survivors
    cases hF : overloadPosFiltered k gs inClass targs numPosArgs args
        (overloadCandidates gs primary) with
    | nil => exact absurd hF h
    | cons x xs => simp [hF]

/-- C4 amended: whenever at least one overload candidate survives the
positional-argument subtype filtering, `guessOverload` never returns a
candidate whose arity is strictly below the number of supplied positional
arguments (lines 235-347). -/
theorem guess_overload_arity_monotone (k : Kernel) (gs : GlobalState)
    (inClass : ClassId) (primary : MethodId) (numPosArgs : Nat)
    (args : List TypeAndOrigins) (targs : List Ty) (hasBlock : Bool)
    (h : overloadPosFiltered k gs inClass targs numPosArgs args
        (overloadCandidates gs primary) ≠ []) :
    numPosArgs ≤ getArity gs
      (guessOverload k gs inClass primary numPosArgs args targs hasBlock) :=
  mem_overloadPosFiltered_arity
    (guessOverload_mem_filtered k gs inClass primary numPosArgs args targs
      hasBlock h)

/-- Witness for `guess_overload_arity_monotone`: a matching `Integer`
positional argument keeps the arity-1 overload of `gsOv` alive. -/
theorem guess_overload_arity_monotone_witness :
    overloadPosFiltered defaultKernel gsOv 5 [] 1 [⟨integerTy⟩]
      (overloadCandidates gsOv 0) ≠ [] ∧
    1 ≤ getArity gsOv
      (guessOverload defaultKernel gsOv 5 0 1 [⟨integerTy⟩] [] false) :=
  ⟨by decide,
    guess_overload_arity_monotone defaultKernel gsOv 5 0 1 [⟨integerTy⟩] []
      false (by decide)⟩

/-- C4 counterexample: in `gsOv` the overload chain of `f` contains a
candidate of arity 1 ≥ 1 (the supplied positional count), yet on a `String`
argument with no block `guessOverload` returns the arity-0 primary: the
full candidate set is restored after the type filter eliminates everyone,
and the arity-1 candidate is then dropped by the block filter. -/
theorem guess_overload_arity_counterexample :
    ((overloadCandidates gsOv 0).any
      (fun c => decide (1 ≤ getArity gsOv c)) = true) ∧
    getArity gsOv
      (guessOverload defaultKernel gsOv 5 0 1 [⟨stringTy⟩] [] false) < 1 := by
  decide

/-- C5 counterexample: dispatching `[]=` on an empty shape receiver
resolves the `Shape#[]=` method — whose name ends in `=` and is not a
comparison operator — but the intrinsic returns untyped for the unknown
key (lines 2539-2546), not the type of the second argument. -/
theorem setter_return_counterexample :
    isSetter (gsShape.methodData 0).name = true ∧
    (dispatchCall defaultKernel gsShape (Ty.shapeType [])
        argsShapeAssign).main.method = some 0 ∧
    (dispatchCall defaultKernel gsShape (Ty.shapeType [])
        argsShapeAssign).returnType = some untypedTy ∧
    argsShapeAssign.args.get? 1 = some ⟨integerTy⟩ ∧
    untypedTy ≠ integerTy := by
  decide

/-- C5 amended: in the symbol-based dispatch path, when the resolved
method's intrinsic (if any) leaves the return type unset, a call with
exactly one argument resolving a non-comparison setter returns the
argument's type, and a call with exactly two arguments resolving `[]=`
returns the second argument's type (lines 1137-1147). -/
theorem setter_return_amended (k : Kernel) (gs : GlobalState)
    (args : DispatchArgs) (symbol : ClassId) (targs : List Ty) (m : MethodId)
    (hu : symbol ≠ Symbols.untyped) (hv : symbol ≠ Symbols.voidC)
    (hres : resolveMethod k gs args symbol targs = some m)
    (hint : (intrinsicResult k gs args symbol targs m).returnType = none) :
    (args.args.length = 1 → isSetter (gs.methodData m).name = true →
      (dispatchCallSymbol k gs args symbol targs).returnType =
        (args.args.head?).map (fun a => a.type)) ∧
    (args.args.length = 2 → (gs.methodData m).name = squareBracketsEqName →
      (dispatchCallSymbol k gs args symbol targs).returnType =
        (args.args.get? 1).map (fun a => a.type)) := by
  unfold resolveMethod at hres
  cases hmem : resolveMember gs symbol args.name with
  | none => rw [hmem] at hres; exact absurd hres (by simp)
  | some mbo =>
    rw [hmem] at hres
    have hm : overloadPick k gs args symbol targs mbo = m :=
      Option.some.inj hres
    constructor
    · intro h1 hset
      obtain ⟨a, ha⟩ : ∃ a, args.args = [a] := by
        cases hargs : args.args with
        | nil => rw [hargs] at h1; simp at h1
        | cons x xs =>
          cases hxs : xs with
          | nil => exact ⟨x, rfl⟩
          | cons y ys => rw [hargs, hxs] at h1; simp at h1
      unfold dispatchCallSymbol
      simp only [hu, hv, if_false, hmem, hm, hint, ha, List.length_cons,
        List.length_nil, hset]
      simp [instantiateFrag, replaceSelfTypeFrag]
    · intro h2 hname
      obtain ⟨a, b, hab⟩ : ∃ a b, args.args = [a, b] := by
        cases hargs : args.args with
        | nil => rw [hargs] at h2; simp at h2
        | cons x xs =>
          cases hxs : xs with
          | nil => rw [hargs, hxs] at h2; simp at h2
          | cons y ys =>
            cases hys : ys with
            | nil => exact ⟨x, y, rfl⟩
            | cons z zs => rw [hargs, hxs, hys] at h2; simp at h2
      have hnotset : isSetter (gs.methodData m).name = true ∨
          isSetter (gs.methodData m).name = false := by
        cases isSetter (gs.methodData m).name <;> simp
      unfold dispatchCallSymbol
      simp only [hu, hv, if_false, hmem, hm, hint, hab, List.length_cons,
        List.length_nil, hname]
      simp [instantiateFrag, replaceSelfTypeFrag]

/-- Witness for `setter_return_amended`: the plain setter `x=` on class 20
called with one `Integer` argument returns `Integer`. -/
theorem setter_return_amended_witness :
    (20 : ClassId) ≠ Symbols.untyped ∧ (20 : ClassId) ≠ Symbols.voidC ∧
    resolveMethod defaultKernel gsShape argsSetter 20 [] = some 1 ∧
    (intrinsicResult defaultKernel gsShape argsSetter 20 [] 1).returnType =
      none ∧
    argsSetter.args.length = 1 ∧
    isSetter (gsShape.methodData 1).name = true ∧
    (dispatchCallSymbol defaultKernel gsShape argsSetter 20 []).returnType =
      (argsSetter.args.head?).map (fun a => a.type) :=
  ⟨by decide, by decide, by decide, by decide, by decide, by decide,
    (setter_return_amended defaultKernel gsShape argsSetter 20 [] 1
        (by decide) (by decide) (by decide) (by decide)).1
      (by decide) (by decide)⟩

/-- An untyped `Ty` is exactly the untyped class type. -/
theorem isUntyped_eq_untypedTy {t : Ty} (h : t.isUntyped = true) :
    t = untypedTy := by
  cases t <;> simp_all [Ty.isUntyped, untypedTy, Symbols.untyped]

/-- C7: `T.must` on a single fully-defined argument returns the argument
type with nil stripped; if the subtraction leaves the type unchanged an
`InvalidCast` diagnostic is produced while the unchanged type is still
returned; on `Integer | Nil` (with the spec-modelled nil-stripping
subtraction) the result is `Integer` with no diagnostic (lines 1310-1341). -/
theorem t_must_strips_nil (k : Kernel) (args : DispatchArgs)
    (x : TypeAndOrigins) (res : DispatchResult)
    (hargs : args.args = [x])
    (hfd : k.isFullyDefined x.type = true) :
    (T_must k args res).returnType =
      some (k.approximateSubtract x.type nilTy) ∧
    (k.approximateSubtract x.type nilTy = x.type →
      args.suppressErrors = false →
      (T_must k args res).main.errors =
        res.main.errors ++ [ErrKind.invalidCast]) ∧
    (k.approximateSubtract x.type nilTy ≠ x.type →
      (T_must k args res).main.errors = res.main.errors) ∧
    (T_must defaultKernel (argsMust (Ty.orType integerTy nilTy))
        emptyResult).returnType = some integerTy ∧
    (T_must defaultKernel (argsMust (Ty.orType integerTy nilTy))
        emptyResult).main.errors = [] := by
  refine ⟨?_, ?_, ?_, by decide, by decide⟩
  · simp [T_must, hargs, hfd]
  · intro heq hsup
    simp [T_must, hargs, hfd, heq, hsup]
  · intro hne
    simp [T_must, hargs, hfd, hne]

/-- Witness for `t_must_strips_nil` on `T.must` of an `Integer | Nil`
value under the concrete kernel. -/
theorem t_must_strips_nil_witness :
    (argsMust (Ty.orType integerTy nilTy)).args =
      [⟨Ty.orType integerTy nilTy⟩] ∧
    defaultKernel.isFullyDefined (Ty.orType integerTy nilTy) = true ∧
    (T_must defaultKernel (argsMust (Ty.orType integerTy nilTy))
        emptyResult).returnType =
      some (defaultKernel.approximateSubtract (Ty.orType integerTy nilTy)
        nilTy) :=
  ⟨rfl, rfl,
    (t_must_strips_nil defaultKernel (argsMust (Ty.orType integerTy nilTy))
      ⟨Ty.orType integerTy nilTy⟩ emptyResult rfl rfl).1⟩

/-- C10: `Module#===` with exactly one argument whose type is untyped
returns that untyped type itself — not `TrueClass`, `FalseClass` or
`Boolean` — and the subtype / greatest-lower-bound evaluation is not
consulted: the result is independent of the kernel (lines 2874-2903). -/
theorem module_tripleEq_untyped (k k2 : Kernel) (args : DispatchArgs)
    (x : TypeAndOrigins) (res : DispatchResult)
    (hargs : args.args = [x])
    (hunt : x.type.isUntyped = true) :
    (Module_tripleEq k args res).returnType = some x.type ∧
    x.type ≠ trueTy ∧ x.type ≠ falseTy ∧ x.type ≠ booleanTy ∧
    Module_tripleEq k args res = Module_tripleEq k2 args res := by
  have hx : x.type = untypedTy := isUntyped_eq_untypedTy hunt
  refine ⟨?_, ?_, ?_, ?_, ?_⟩
  · simp [Module_tripleEq, hargs, hunt]
  · rw [hx]; decide
  · rw [hx]; decide
  · rw [hx]; decide
  · simp [Module_tripleEq, hargs, hunt]

/-- Witness for `module_tripleEq_untyped` on a concrete untyped argument. -/
theorem module_tripleEq_untyped_witness :
    (argsMust untypedTy).args = [⟨untypedTy⟩] ∧
    (untypedTy.isUntyped = true) ∧
    (Module_tripleEq defaultKernel (argsMust untypedTy) emptyResult).returnType
      = some untypedTy :=
  ⟨rfl, rfl,
    (module_tripleEq_untyped defaultKernel defaultKernel (argsMust untypedTy)
      ⟨untypedTy⟩ emptyResult rfl rfl).1⟩

theorem shapeLookupKey_nil (k : LitVal) : shapeLookupKey [] k = none := rfl

/-- Head-step of `shapeLookupKey`. -/
theorem shapeLookupKey_cons (e : LitVal × Ty) (l : List (LitVal × Ty))
    (k : LitVal) :
    shapeLookupKey (e :: l) k =
      if e.1 = k then some e.2 else shapeLookupKey l k := by
  by_cases h : e.1 = k
  · rw [if_pos h]
    unfold shapeLookupKey
    rw [List.find?_cons_of_pos _ (by simp [h])]
    rfl
  · rw [if_neg h]
    unfold shapeLookupKey
    rw [List.find?_cons_of_neg _ (by simp [h])]

/-- Looking up the key just written by `shapeUpdateFirst` finds the new
value, provided the key was present. -/
theorem shapeLookupKey_shapeUpdateFirst_self (S : List (LitVal × Ty))
    (key : LitVal) (v : Ty)
    (h : S.any (fun e => decide (e.1 = key)) = true) :
    shapeLookupKey (shapeUpdateFirst S key v) key = some v := by
  induction S with
  | nil => simp at h
  | cons e rest ih =>
    by_cases hk : e.1 = key
    · simp only [shapeUpdateFirst, if_pos hk, shapeLookupKey_cons]
    · simp only [shapeUpdateFirst, if_neg hk, shapeLookupKey_cons]
      exact ih (by simpa [hk] using h)

/-- Appending a fresh entry makes it visible to lookup when the key was
absent. -/
theorem shapeLookupKey_append_self (S : List (LitVal × Ty)) (key : LitVal)
    (v : Ty) (h : S.any (fun e => decide (e.1 = key)) = false) :
    shapeLookupKey (S ++ [(key, v)]) key = some v := by
  induction S with
  | nil => simp [shapeLookupKey_cons]
  | cons e rest ih =>
    simp only [List.any_cons, Bool.or_eq_false_iff,
      decide_eq_false_iff_not] at h
    rw [List.cons_append, shapeLookupKey_cons, if_neg h.1]
    exact ih h.2

/-- `shapeUpdateFirst` leaves the other keys' lookups unchanged. -/
theorem shapeLookupKey_shapeUpdateFirst_other (S : List (LitVal × Ty))
    (key k2 : LitVal) (v : Ty) (h : k2 ≠ key) :
    shapeLookupKey (shapeUpdateFirst S key v) k2 = shapeLookupKey S k2 := by
  induction S with
  | nil => simp [shapeUpdateFirst]
  | cons e rest ih =>
    by_cases hk : e.1 = key
    · have hne : ¬e.1 = k2 := by
        rw [hk]; exact fun hc => h hc.symm
      simp only [shapeUpdateFirst, if_pos hk, shapeLookupKey_cons]
      rw [if_neg hne, if_neg hne]
    · simp only [shapeUpdateFirst, if_neg hk, shapeLookupKey_cons]
      by_cases h2 : e.1 = k2
      · rw [if_pos h2, if_pos h2]
      · rw [if_neg h2, if_neg h2]
        exact ih

/-- Appending a fresh entry leaves the other keys' lookups unchanged. -/
theorem shapeLookupKey_append_other (S : List (LitVal × Ty))
    (key k2 : LitVal) (v : Ty) (h : k2 ≠ key) :
    shapeLookupKey (S ++ [(key, v)]) k2 = shapeLookupKey S k2 := by
  induction S with
  | nil =>
    rw [List.nil_append, shapeLookupKey_cons, if_neg (fun hc => h hc.symm)]
  | cons e rest ih =>
    rw [List.cons_append, shapeLookupKey_cons, shapeLookupKey_cons]
    by_cases h2 : e.1 = k2
    · rw [if_pos h2, if_pos h2]
    · rw [if_neg h2, if_neg h2]
      exact ih

/-- `shapeUpdateFirst` does not change the key sequence. -/
theorem shapeUpdateFirst_keys (S : List (LitVal × Ty)) (key : LitVal)
    (v : Ty) :
    (shapeUpdateFirst S key v).map Prod.fst = S.map Prod.fst := by
  induction S with
  | nil => simp [shapeUpdateFirst]
  | cons e rest ih =>
    by_cases hk : e.1 = key
    · simp [shapeUpdateFirst, hk]
    · simp [shapeUpdateFirst, hk, ih]

/-- C8: merging a shape with an empty shape returns an equal shape;
merging with a single-entry shape `{k: v}` yields the shape extended with
`k: v`, where an already-present key keeps its position and has its value
replaced instead of being appended a second time (lines 2550-2610). -/
theorem shape_merge_identity_and_insert (S : List (LitVal × Ty))
    (key : LitVal) (v : Ty) (res : DispatchResult) (nm : MName)
    (st ft : Ty) (sup : Bool) :
    (Shape_merge
        { name := nm, numPosArgs := 1, args := [⟨Ty.shapeType []⟩],
          selfType := st, fullType := ft, thisType := Ty.shapeType S,
          block := false, suppressErrors := sup } res).returnType =
      some (Ty.shapeType S) ∧
    (Shape_merge
        { name := nm, numPosArgs := 1, args := [⟨Ty.shapeType [(key, v)]⟩],
          selfType := st, fullType := ft, thisType := Ty.shapeType S,
          block := false, suppressErrors := sup } res).returnType =
      some (Ty.shapeType (addShapeEntry S key v)) ∧
    shapeLookupKey (addShapeEntry S key v) key = some v ∧
    (∀ k2, k2 ≠ key →
      shapeLookupKey (addShapeEntry S key v) k2 = shapeLookupKey S k2) ∧
    (addShapeEntry S key v).map Prod.fst =
      (if S.any (fun e => decide (e.1 = key)) then S.map Prod.fst
       else S.map Prod.fst ++ [key]) := by
  refine ⟨rfl, rfl, ?_, ?_, ?_⟩
  · unfold addShapeEntry
    split <;> rename_i h
    · exact shapeLookupKey_shapeUpdateFirst_self S key v h
    · exact shapeLookupKey_append_self S key v (Bool.not_eq_true _ ▸ h)
  · intro k2 h2
    unfold addShapeEntry
    split <;> rename_i h
    · exact shapeLookupKey_shapeUpdateFirst_other S key k2 v h2
    · exact shapeLookupKey_append_other S key k2 v h2
  · unfold addShapeEntry
    split <;> rename_i h
    · simp [h, shapeUpdateFirst_keys]
    · simp only [Bool.not_eq_true] at h
      simp [h]

/-- Witness for `shape_merge_identity_and_insert` on the shape
`{a: Integer}` merged with `{a: String}` and probed at the key `b`. -/
theorem shape_merge_identity_and_insert_witness :
    (Shape_merge
        { name := MName.utf8 "merge", numPosArgs := 1,
          args := [⟨Ty.shapeType []⟩],
          selfType := untypedTy, fullType := untypedTy,
          thisType := Ty.shapeType [(LitVal.sym "a", integerTy)],
          block := false, suppressErrors := false } emptyResult).returnType =
      some (Ty.shapeType [(LitVal.sym "a", integerTy)]) ∧
    shapeLookupKey
        (addShapeEntry [(LitVal.sym "a", integerTy)] (LitVal.sym "a") stringTy)
        (LitVal.sym "b") =
      shapeLookupKey [(LitVal.sym "a", integerTy)] (LitVal.sym "b") :=
  ⟨(shape_merge_identity_and_insert [(LitVal.sym "a", integerTy)]
      (LitVal.sym "a") stringTy emptyResult (MName.utf8 "merge") untypedTy
      untypedTy false).1,
    (shape_merge_identity_and_insert [(LitVal.sym "a", integerTy)]
      (LitVal.sym "a") stringTy emptyResult (MName.utf8 "merge") untypedTy
      untypedTy false).2.2.2.1 (LitVal.sym "b") (by decide)⟩

/-- Witness for `tuple_empty_first_last_min_max` on a concrete call. -/
theorem tuple_empty_first_last_min_max_witness :
    (argsTupEmpty "first").thisType = Ty.tupleType [] ∧
    (argsTupEmpty "first").args = [] ∧
    ((Tuple_first (argsTupEmpty "first") emptyResult).returnType = some nilTy ∧
      (Tuple_last (argsTupEmpty "first") emptyResult).returnType = some nilTy ∧
      (Tuple_minMax defaultKernel (argsTupEmpty "first") emptyResult).returnType =
        some nilTy) :=
  ⟨rfl, rfl,
    tuple_empty_first_last_min_max defaultKernel (argsTupEmpty "first")
      emptyResult rfl rfl⟩

end SorbetCalls
